import Mathlib

/-!
Verification of the Einstein Laboratory / Repository core against its
natural-language specification.  The TypeScript source is shallowly
embedded: blobs are modelled as parsed values (yaml serialization is an
injective round-trip), storage as an association list of key/blob pairs,
and each service method as a pure function that returns its result
together with the trace of externally visible effects (log lines, blob
reads, worker-creation requests).
-/

namespace Einstein

/-- Prefix test on character lists (the string prefix test used by the
naming and secrets models). -/
def charsPrefixOf : List Char → List Char → Bool
  | [], _ => true
  | _ :: _, [] => false
  | a :: as, b :: bs => a == b && charsPrefixOf as bs

/-- `strHasPrefixOf s pre` holds when `pre` is a prefix of `s`
(`String.startsWith` in the source platform). -/
def strHasPrefixOf (s pre : String) : Bool :=
  charsPrefixOf pre.data s.data

/-! ## Data model (src/src/laboratory/interfaces.ts and the Laboratory source) -/

/-- BenchmarkDescription: EntityDescription plus the container image
reference actually used by the Laboratory (`description.image`). -/
structure BenchmarkDescription where
  name : String
  description : String
  owner : String
  created : String
  image : String
  deriving DecidableEq, Repr

/-- CandidateDescription: references exactly one benchmark and carries the
container image plus the embedded secret fields (ciphertext until
decrypted with the Laboratory's private key). -/
structure CandidateDescription where
  name : String
  description : String
  owner : String
  created : String
  benchmarkId : String
  image : String
  secrets : List String
  deriving DecidableEq, Repr

/-- SuiteDescription: references exactly one benchmark. -/
structure SuiteDescription where
  name : String
  description : String
  owner : String
  created : String
  benchmarkId : String
  domainData : List String
  testData : List String
  deriving DecidableEq, Repr

/-- RunDescription, from src/src/laboratory/interfaces.ts. -/
structure RunDescription where
  name : String
  description : String
  owner : String
  created : String
  runId : String
  benchmarkId : String
  containerId : String
  suiteId : String
  results : List String
  deriving DecidableEq, Repr

/-- A stored blob.  The source stores yaml-serialized descriptions; since
`yaml.safeDump` / `safeLoad` round-trip, a blob is modelled as the parsed
value itself (plus raw text for the secret volume's manifest and logs). -/
inductive Blob where
  | benchmark (b : BenchmarkDescription)
  | candidate (c : CandidateDescription)
  | suite (s : SuiteDescription)
  | run (r : RunDescription)
  | text (s : String)
  deriving DecidableEq, Repr

/-! ## Blob storage collaborator.

Modelled from the spec: the cloud module is not under src/.  Section 6
gives `writeBlob(key, bytes, allowOverwrite)`, `readBlob(key)` (fails if
absent) and `listBlobs()`; section 5 requires writes to a given key to be
create-once (reject on existing key) unless overwrite is allowed. -/

/-- Storage is a key-addressed map of blobs, kept as an association list
in write order. -/
abbrev Storage : Type := List (String × Blob)

/-- Modelled from the spec: `readBlob(key)` returns the blob at the key,
or nothing when the key is absent. -/
def readBlob (storage : Storage) (key : String) : Option Blob :=
  List.lookup key storage

/-- Modelled from the spec: `writeBlob(key, bytes, allowOverwrite)` fails
on an existing key unless overwrite is allowed (create-once discipline of
section 5). -/
def writeBlob (storage : Storage) (key : String) (blob : Blob)
    (allowOverwrite : Bool) : Except String Storage :=
  match List.lookup key storage with
  | some _ =>
      if allowOverwrite then
        Except.ok (storage.map fun kv => if kv.1 = key then (kv.1, blob) else kv)
      else
        Except.error ("writeBlob: key " ++ key ++ " already exists")
  | none => Except.ok (storage ++ [(key, blob)])

/-- Modelled from the spec: `listBlobs()` enumerates every blob key. -/
def listBlobs (storage : Storage) : List String :=
  storage.map Prod.fst

/-! ## Naming module.

Modelled from the spec: the naming module is not under src/.  Section 4.1
specifies `encode(kind, discriminator)` as a pure deterministic map from
kind and content-derived discriminator to a storage key, and
`classify(key)` as the inverse-ish bucketing of a key into one of the
four collections. -/

/-- Modelled from the spec: deterministic key for a benchmark, derived
from its image reference. -/
def encodeBenchmark (image : String) : String :=
  "/benchmarks/" ++ image

/-- Modelled from the spec: deterministic key for a candidate, derived
from its image reference. -/
def encodeCandidate (image : String) : String :=
  "/candidates/" ++ image

/-- Modelled from the spec: deterministic key for a suite, derived from
its name. -/
def encodeSuite (name : String) : String :=
  "/suites/" ++ name

/-- Modelled from the spec: key of the log blob named after a worker
host. -/
def encodeLog (host : String) : String :=
  "/logs/" ++ host

/-- Modelled from the spec: `classify(key) -> collection | none`, used by
the Repository to bucket blob keys (`getCollection` in the source). -/
def getCollection (key : String) : Option String :=
  if strHasPrefixOf key "/benchmarks/" then some "benchmarks"
  else if strHasPrefixOf key "/candidates/" then some "candidates"
  else if strHasPrefixOf key "/suites/" then some "suites"
  else if strHasPrefixOf key "/runs/" then some "runs"
  else none

/-! ## Secrets module.

Modelled from the spec: the secrets module is not under src/.  Section
4.2 specifies asymmetric key pairs, encryption of secret fields with the
public key by the submitter, and `decryptSecrets(candidate, privateKey)`
replacing ciphertext with plaintext in the candidate's secret-bearing
fields, failing when a field is not valid ciphertext for the given key. -/

structure KeyPair where
  publicKey : String
  privateKey : String
  deriving DecidableEq, Repr

/-- Modelled from the spec: key-pair generation; the two halves of a pair
share a seed so that decryption succeeds exactly on matching pairs. -/
def generateKeys (seed : String) : KeyPair :=
  { publicKey := "public-" ++ seed, privateKey := "private-" ++ seed }

/-- Modelled from the spec: a submitter encrypts a secret field with the
public key before uploading a candidate. -/
def encryptField (publicKey plaintext : String) : String :=
  "ciphertext-" ++ String.drop publicKey 7 ++ ":" ++ plaintext

/-- Modelled from the spec: decrypt one secret field with the private
key; fails when the field is not valid ciphertext for this key. -/
def decryptField (privateKey ciphertext : String) : Option String :=
  let tag := "ciphertext-" ++ String.drop privateKey 8 ++ ":"
  if strHasPrefixOf ciphertext tag then
    some (String.drop ciphertext tag.length)
  else
    none

/-- Modelled from the spec: `decryptSecrets(candidate, privateKey)`
replaces every ciphertext secret field with its plaintext; fails
(propagates) if any field is not valid ciphertext for the key. -/
def decryptSecrets (c : CandidateDescription) (privateKey : String) :
    Option CandidateDescription :=
  (c.secrets.mapM (decryptField privateKey)).map
    fun plain => { c with secrets := plain }

/-! ## Serialization of the candidate manifest (yaml.safeDump). -/

/-- The serialized candidate manifest written into the run-scoped secrets
volume (`yaml.safeDump(candidateData)` in the source). -/
def dumpCandidate (c : CandidateDescription) : String :=
  "name: " ++ c.name ++
  "\ndescription: " ++ c.description ++
  "\nowner: " ++ c.owner ++
  "\ncreated: " ++ c.created ++
  "\nbenchmarkId: " ++ c.benchmarkId ++
  "\nimage: " ++ c.image ++
  "\nsecrets: " ++ String.intercalate ", " c.secrets

/-! ## Loaders.

Modelled from the spec: the loaders module is not under src/.  Loading
reads the blob at the given key and parses it as the expected
description kind; it fails when the blob is absent (or not of that
kind). -/

/-- Modelled from the spec: load a suite description by blob key. -/
def loadSuite (storage : Storage) (key : String) : Option SuiteDescription :=
  match readBlob storage key with
  | some (Blob.suite s) => some s
  | _ => none

/-- Modelled from the spec: load a candidate description by blob key. -/
def loadCandidate (storage : Storage) (key : String) :
    Option CandidateDescription :=
  match readBlob storage key with
  | some (Blob.candidate c) => some c
  | _ => none

/-- Modelled from the spec: load a benchmark description by blob key. -/
def loadBenchmark (storage : Storage) (key : String) :
    Option BenchmarkDescription :=
  match readBlob storage key with
  | some (Blob.benchmark b) => some b
  | _ => none

/-! ## Laboratory service effects -/

/-- A volume attached to a worker (`mount` plus its backing storage). -/
structure Volume where
  mount : String
  storage : Storage
  deriving DecidableEq

/-- One `createWorker` request as issued by the Laboratory: host name,
image id, attached volumes, environment bindings, and the key of the log
blob its dedicated `BlobLogger` appends to. -/
structure WorkerRequest where
  host : String
  image : String
  volumes : List Volume
  environment : List (String × String)
  logBlob : String
  deriving DecidableEq

/-- Externally visible effects of a Laboratory call, in program order. -/
inductive Event where
  | log (message : String)
  | readAttempt (key : String)
  | createWorker (w : WorkerRequest)
  deriving DecidableEq

/-- The `createWorker` requests contained in a trace, in order. -/
def createWorkerRequests (trace : List Event) : List WorkerRequest :=
  trace.filterMap fun e =>
    match e with
    | Event.createWorker w => some w
    | _ => none

deriving instance DecidableEq for Except

/-- Laboratory instance state: its key pair and the cloud storage it is
bound to (the world's orchestrator is modelled through the trace). -/
structure LabState where
  keys : KeyPair
  cloudStorage : Storage
  deriving DecidableEq

/-- Result of `Laboratory.create`: the cloud storage after the call, the
trace, and either the returned key or the thrown error message. -/
structure CreateResult where
  cloudStorage : Storage
  trace : List Event
  result : Except String String
  deriving DecidableEq

/-- Result of `Laboratory.run`: the trace of effects, the outcome, the
cloud storage after the call, and the content of the run-scoped secrets
volume when one was created. -/
structure RunResult where
  trace : List Event
  result : Except String Unit
  cloudStorage : Storage
  secretsVolume : Option Storage
  deriving DecidableEq

/-! ## Laboratory service (Laboratory class in the source) -/

/-- Tagged union over the entity descriptions accepted by
`Laboratory.create`; `other` covers any unsupported kind tag. -/
inductive AnyDescription where
  | benchmark (b : BenchmarkDescription)
  | candidate (c : CandidateDescription)
  | suite (s : SuiteDescription)
  | other (kind : String)
  deriving DecidableEq

/-- The kind tag carried by a description. -/
def AnyDescription.kind : AnyDescription → String
  | AnyDescription.benchmark _ => "benchmark"
  | AnyDescription.candidate _ => "candidate"
  | AnyDescription.suite _ => "suite"
  | AnyDescription.other k => k

/-- The canonical storage key `create` would write a description to
(none for unsupported kinds). -/
def AnyDescription.storageKey : AnyDescription → Option String
  | AnyDescription.benchmark b => some (encodeBenchmark b.image)
  | AnyDescription.candidate c => some (encodeCandidate c.image)
  | AnyDescription.suite s => some (encodeSuite s.name)
  | AnyDescription.other _ => none

namespace Laboratory

/-- `Laboratory.getPublicKey()`: no side effects. -/
def getPublicKey (lab : LabState) : String :=
  lab.keys.publicKey

/-- `Laboratory.createBenchmark`: encode the key from the image,
serialize, write as a new blob (overwrite not allowed), log the upload,
return the key. -/
def createBenchmark (lab : LabState) (d : BenchmarkDescription) : CreateResult :=
  let encoded := encodeBenchmark d.image
  match writeBlob lab.cloudStorage encoded (Blob.benchmark d) false with
  | Except.error e =>
      { cloudStorage := lab.cloudStorage, trace := [], result := Except.error e }
  | Except.ok storage =>
      { cloudStorage := storage,
        trace := [Event.log ("Uploaded benchmark schema to " ++ encoded)],
        result := Except.ok encoded }

/-- `Laboratory.createCandidate`: same handler shape, keyed by the
candidate's image. -/
def createCandidate (lab : LabState) (d : CandidateDescription) : CreateResult :=
  let encoded := encodeCandidate d.image
  match writeBlob lab.cloudStorage encoded (Blob.candidate d) false with
  | Except.error e =>
      { cloudStorage := lab.cloudStorage, trace := [], result := Except.error e }
  | Except.ok storage =>
      { cloudStorage := storage,
        trace := [Event.log ("Uploaded candidate schema to " ++ encoded)],
        result := Except.ok encoded }

/-- `Laboratory.createSuite`: same handler shape, keyed by the suite's
name. -/
def createSuite (lab : LabState) (d : SuiteDescription) : CreateResult :=
  let encoded := encodeSuite d.name
  match writeBlob lab.cloudStorage encoded (Blob.suite d) false with
  | Except.error e =>
      { cloudStorage := lab.cloudStorage, trace := [], result := Except.error e }
  | Except.ok storage =>
      { cloudStorage := storage,
        trace := [Event.log ("Uploaded suite schema to " ++ encoded)],
        result := Except.ok encoded }

/-- `Laboratory.create`: dispatch on the description's kind; an
unsupported kind is logged and thrown as a TypeError, with nothing
written. -/
def create (lab : LabState) (d : AnyDescription) : CreateResult :=
  match d with
  | AnyDescription.benchmark b => createBenchmark lab b
  | AnyDescription.candidate c => createCandidate lab c
  | AnyDescription.suite s => createSuite lab s
  | AnyDescription.other k =>
      let message := "Laboratory.create(): unsupported kind===\"" ++ k ++ "\""
      { cloudStorage := lab.cloudStorage,
        trace := [Event.log message],
        result := Except.error message }

/-- `Laboratory.run(candidateId, suiteId)`.  The fresh run identifier
produced by `createRunId()` is passed as the `runId` argument.  Steps, in
source order: log the call; load the suite (any failure becomes "Cannot
find suite"); load the candidate (any failure becomes "Cannot find
candidate"); check the two benchmark ids match (log and throw on
mismatch); decrypt the candidate's secrets (propagate failure); write the
decrypted manifest to a fresh RamDisk at spec.yaml; issue the candidate
worker request (host c+runId, volume at /secrets, empty environment);
issue the benchmark worker request (host b+runId, no volumes, environment
candidate/host/run/suite).  Neither request is awaited. -/
def run (lab : LabState) (runId candidateId suiteId : String) : RunResult :=
  let t0 : List Event :=
    [Event.log ("run(" ++ candidateId ++ ", " ++ suiteId ++ ")")]
  match loadSuite lab.cloudStorage suiteId with
  | none =>
      { trace := t0 ++ [Event.readAttempt suiteId],
        result := Except.error ("Cannot find suite " ++ suiteId),
        cloudStorage := lab.cloudStorage,
        secretsVolume := none }
  | some suiteData =>
      let t1 := t0 ++ [Event.readAttempt suiteId]
      match loadCandidate lab.cloudStorage candidateId with
      | none =>
          { trace := t1 ++ [Event.readAttempt candidateId],
            result := Except.error ("Cannot find candidate " ++ candidateId),
            cloudStorage := lab.cloudStorage,
            secretsVolume := none }
      | some candidateData =>
          let t2 := t1 ++ [Event.readAttempt candidateId]
          if suiteData.benchmarkId ≠ candidateData.benchmarkId then
            let message := "Suite and Candidate benchmarks don't match."
            { trace := t2 ++ [Event.log message],
              result := Except.error message,
              cloudStorage := lab.cloudStorage,
              secretsVolume := none }
          else
            match decryptSecrets candidateData lab.keys.privateKey with
            | none =>
                { trace := t2,
                  result := Except.error
                    "decryptSecrets: field is not valid ciphertext for the given key",
                  cloudStorage := lab.cloudStorage,
                  secretsVolume := none }
            | some decrypted =>
                let yamlText := dumpCandidate decrypted
                let secrets : Storage :=
                  match writeBlob [] "spec.yaml" (Blob.text yamlText) true with
                  | Except.ok s => s
                  | Except.error _ => []
                let volume : Volume := { mount := "/secrets", storage := secrets }
                let candidateHost := "c" ++ runId
                let benchmarkHost := "b" ++ runId
                let w1 : WorkerRequest :=
                  { host := candidateHost,
                    image := candidateId,
                    volumes := [volume],
                    environment := [],
                    logBlob := encodeLog candidateHost }
                let w2 : WorkerRequest :=
                  { host := benchmarkHost,
                    image := suiteData.benchmarkId,
                    volumes := [],
                    environment :=
                      [("candidate", candidateId),
                       ("host", candidateHost),
                       ("run", "r" ++ runId),
                       ("suite", suiteId)],
                    logBlob := encodeLog benchmarkHost }
                { trace := t2 ++
                    [Event.log ("Starting candidate " ++ candidateId ++ " on " ++ candidateHost),
                     Event.createWorker w1,
                     Event.log ("Starting benchmark " ++ suiteData.benchmarkId ++ " on " ++ benchmarkHost),
                     Event.createWorker w2],
                  result := Except.ok (),
                  cloudStorage := lab.cloudStorage,
                  secretsVolume := some secrets }

end Laboratory

/-! ## Local relational store collaborator.

Modelled from the spec: the LocalDatabase of the cloud module is not
under src/.  Section 6 gives `ensureTable(name, columnSpecs)`
(idempotent), `insert(name, values)`, `select(name)` and
`getColumns(name)`. -/

structure ColumnSpec where
  name : String
  type : String
  deriving DecidableEq

structure Table where
  columns : List ColumnSpec
  rows : List (List String)
  deriving DecidableEq

/-- The local database: tables by name, in creation order. -/
abbrev Database : Type := List (String × Table)

/-- Modelled from the spec: `ensureTable(name, columnSpecs)` is
idempotent — it creates the table when absent and leaves an existing
table untouched. -/
def ensureTable (db : Database) (name : String) (columns : List ColumnSpec) :
    Database :=
  match List.lookup name db with
  | some _ => db
  | none => db ++ [(name, { columns := columns, rows := [] })]

/-- Modelled from the spec: `insert(name, values)` appends a row to the
named table; no uniqueness constraint is applied. -/
def dbInsert (db : Database) (name : String) (row : List String) : Database :=
  db.map fun entry =>
    if entry.1 = name then (entry.1, { entry.2 with rows := entry.2.rows ++ [row] })
    else entry

/-- Modelled from the spec: `getColumns(name)` fails when the table does
not exist. -/
def dbGetColumns (db : Database) (name : String) :
    Except String (List ColumnSpec) :=
  match List.lookup name db with
  | some t => Except.ok t.columns
  | none => Except.error ("Table " ++ name ++ " not found")

/-- Modelled from the spec: `select(name)` fails when the table does not
exist. -/
def dbSelect (db : Database) (name : String) :
    Except String (List (List String)) :=
  match List.lookup name db with
  | some t => Except.ok t.rows
  | none => Except.error ("Table " ++ name ++ " not found")

/-! ## Repository service (Repository class in the source) -/

/-- Repository instance state: its private LocalDatabase and its
benchmark-description cache (blob key to description, never
invalidated). -/
structure RepoState where
  database : Database
  benchmarkCache : List (String × BenchmarkDescription)
  deriving DecidableEq

/-- A freshly constructed Repository: empty database, empty cache. -/
def RepoState.empty : RepoState :=
  { database := [], benchmarkCache := [] }

/-- The result rows and columns of `Repository.select`. -/
structure SelectResults where
  columns : List ColumnSpec
  rows : List (List String)
  deriving DecidableEq

namespace Repository

/-- `Repository.select(from)`: read `getColumns` then `select` from the
local database; fails when the table does not exist. -/
def select (repo : RepoState) (tableName : String) :
    Except String SelectResults :=
  match dbGetColumns repo.database tableName with
  | Except.error e => Except.error e
  | Except.ok columns =>
      match dbSelect repo.database tableName with
      | Except.error e => Except.error e
      | Except.ok rows => Except.ok { columns := columns, rows := rows }

/-- The fixed column schema of the benchmarks table. -/
def benchmarkColumns : List ColumnSpec :=
  [{ name := "image", type := "string" },
   { name := "name", type := "string" },
   { name := "owner", type := "string" },
   { name := "created", type := "string" }]

/-- `Repository.getBenchmark`: read-through cache keyed by blob key; on a
miss, load the benchmark description from cloud storage and cache it.
The load failure propagates (the source awaits `loadBenchmark`). -/
def getBenchmark (cloudStorage : Storage) (repo : RepoState) (blob : String) :
    Except String (BenchmarkDescription × RepoState) :=
  match List.lookup blob repo.benchmarkCache with
  | some benchmark => Except.ok (benchmark, repo)
  | none =>
      match loadBenchmark cloudStorage blob with
      | none => Except.error ("Cannot find benchmark " ++ blob)
      | some benchmark =>
          Except.ok (benchmark,
            { repo with benchmarkCache := repo.benchmarkCache ++ [(blob, benchmark)] })

/-- `Repository.processBenchmark`: load (and cache) the description,
ensure the benchmarks table with its fixed schema, and insert a row for
this benchmark.  No uniqueness check is performed before the insert. -/
def processBenchmark (cloudStorage : Storage) (repo : RepoState)
    (blob : String) : Except String RepoState :=
  match getBenchmark cloudStorage repo blob with
  | Except.error e => Except.error e
  | Except.ok (benchmark, repo) =>
      let db := ensureTable repo.database "benchmarks" benchmarkColumns
      let db := dbInsert db "benchmarks"
        [benchmark.image, benchmark.name, benchmark.owner, benchmark.created]
      Except.ok { repo with database := db }

/-- `Repository.processRun`: the source body is empty (comments only), so
the repository state is unchanged. -/
def processRun (repo : RepoState) (_name : String) : Except String RepoState :=
  Except.ok repo

/-- `Repository.processSuite`: the source body is empty (comments only),
so the repository state is unchanged. -/
def processSuite (repo : RepoState) (_name : String) : Except String RepoState :=
  Except.ok repo

/-- `Repository.processCandidate`: the source body is empty (comments
only), so the repository state is unchanged. -/
def processCandidate (repo : RepoState) (_name : String) :
    Except String RepoState :=
  Except.ok repo

/-- One step of the crawl loop: classify the blob key and dispatch to the
per-collection handler; a key outside every collection is skipped. -/
def processBlob (cloudStorage : Storage) (repo : RepoState) (blob : String) :
    Except String RepoState :=
  match getCollection blob with
  | some "benchmarks" => processBenchmark cloudStorage repo blob
  | some "candidates" => processCandidate repo blob
  | some "suites" => processSuite repo blob
  | some "runs" => processRun repo blob
  | _ => Except.ok repo

/-- `Repository.crawlBlobs`: list every blob key in cloud storage and
dispatch each in listing order. -/
def crawlBlobs (cloudStorage : Storage) (repo : RepoState) :
    Except String RepoState :=
  (listBlobs cloudStorage).foldlM (fun r blob => processBlob cloudStorage r blob) repo

/-- A task dispatched by the Repository but not awaited. -/
inductive PendingTask where
  | crawlBlobs
  deriving DecidableEq

/-- Run a pending task to completion against the given storage. -/
def runPendingTask (task : PendingTask) (cloudStorage : Storage)
    (repo : RepoState) : Except String RepoState :=
  match task with
  | PendingTask.crawlBlobs => crawlBlobs cloudStorage repo

/-- `Repository.initialize()`: dispatches `crawlBlobs()` without awaiting
it (`this.crawlBlobs();` carries no `await`), so the call resolves with
the repository state unchanged and the crawl still pending. -/
def initializeService (_cloudStorage : Storage) (repo : RepoState) :
    RepoState × List PendingTask :=
  (repo, [PendingTask.crawlBlobs])

end Repository

/-! ## Concrete scenario from the spec's section 8.

Benchmark B1 with image img/true-false:1.0, Suite S1 referencing B1,
Candidate C1 referencing B1 with an encrypted secret field. -/

def sampleKeys : KeyPair :=
  generateKeys "k"

def sampleBenchmark : BenchmarkDescription :=
  { name := "B1",
    description := "A sample benchmark for boolean expression evaluation.",
    owner := "Mike",
    created := "2020-01-07T00:00:00Z",
    image := "img/true-false:1.0" }

def sampleBenchmarkId : String :=
  encodeBenchmark sampleBenchmark.image

def sampleSuite : SuiteDescription :=
  { name := "S1",
    description := "A sample suite.",
    owner := "Mike",
    created := "2020-01-07T00:01:00Z",
    benchmarkId := sampleBenchmarkId,
    domainData := [],
    testData := [] }

def sampleSuiteId : String :=
  encodeSuite sampleSuite.name

def sampleCandidate : CandidateDescription :=
  { name := "C1",
    description := "A sample candidate.",
    owner := "Mike",
    created := "2020-01-07T00:02:00Z",
    benchmarkId := sampleBenchmarkId,
    image := "img/true-false-candidate:1.0",
    secrets := [encryptField sampleKeys.publicKey "api-token"] }

def sampleCandidateId : String :=
  encodeCandidate sampleCandidate.image

/-- Cloud storage holding B1, S1 and C1. -/
def sampleStorage : Storage :=
  [(sampleBenchmarkId, Blob.benchmark sampleBenchmark),
   (sampleSuiteId, Blob.suite sampleSuite),
   (sampleCandidateId, Blob.candidate sampleCandidate)]

/-- A Laboratory instance holding the sample key pair and storage. -/
def sampleLab : LabState :=
  { keys := sampleKeys, cloudStorage := sampleStorage }

/-- The decrypted form of the sample candidate. -/
def sampleDecrypted : CandidateDescription :=
  { sampleCandidate with secrets := ["api-token"] }

/-- A suite referencing a different benchmark than the sample candidate
(used for the mismatch scenario). -/
def mismatchedSuite : SuiteDescription :=
  { sampleSuite with name := "S2", benchmarkId := encodeBenchmark "img/other:1.0" }

def mismatchedSuiteId : String :=
  encodeSuite mismatchedSuite.name

/-- A Laboratory whose storage also holds the mismatched suite. -/
def mismatchLab : LabState :=
  { keys := sampleKeys,
    cloudStorage := sampleStorage ++ [(mismatchedSuiteId, Blob.suite mismatchedSuite)] }

/-- A candidate whose secret field is not valid ciphertext for the
Laboratory's key. -/
def badSecretCandidate : CandidateDescription :=
  { sampleCandidate with
    image := "img/bad-secret-candidate:1.0",
    secrets := ["not-a-ciphertext"] }

def badSecretCandidateId : String :=
  encodeCandidate badSecretCandidate.image

/-- A Laboratory whose storage also holds the bad-secret candidate. -/
def badSecretLab : LabState :=
  { keys := sampleKeys,
    cloudStorage := sampleStorage ++ [(badSecretCandidateId, Blob.candidate badSecretCandidate)] }

/-- A run description for the crawl scenarios. -/
def sampleRun : RunDescription :=
  { name := "R1",
    description := "A sample run.",
    owner := "Mike",
    created := "2020-01-07T00:03:00Z",
    runId := "r1",
    benchmarkId := sampleBenchmarkId,
    containerId := sampleCandidateId,
    suiteId := sampleSuiteId,
    results := [] }

/-- Storage in which the Run blob (and the candidate and suite blobs) are
listed before the Benchmark blob — a reordered crawl listing. -/
def reorderedStorage : Storage :=
  [("/runs/r1", Blob.run sampleRun),
   (sampleCandidateId, Blob.candidate sampleCandidate),
   (sampleSuiteId, Blob.suite sampleSuite),
   (sampleBenchmarkId, Blob.benchmark sampleBenchmark)]

/-- The row `processBenchmark` inserts for the sample benchmark. -/
def sampleBenchmarkRow : List String :=
  [sampleBenchmark.image, sampleBenchmark.name, sampleBenchmark.owner,
   sampleBenchmark.created]

/-! ## Theorems -/

set_option maxRecDepth 100000

/-- Claim C1: for every valid submitted benchmark, suite and candidate
referencing the same benchmark id, `run(candidateId, suiteId)` issues
exactly two `createWorker` calls — one for the candidate on host
c+runId, with a volume mounted at /secrets holding the decrypted
candidate manifest at spec.yaml, and one for the benchmark on host
b+runId, with environment bindings candidate, host, run=r+runId and
suite. -/
theorem lab_run_issues_two_workers
    (lab : LabState) (runId candidateId suiteId : String)
    (suiteData : SuiteDescription) (candidateData decrypted : CandidateDescription)
    (hs : loadSuite lab.cloudStorage suiteId = some suiteData)
    (hc : loadCandidate lab.cloudStorage candidateId = some candidateData)
    (hb : suiteData.benchmarkId = candidateData.benchmarkId)
    (hd : decryptSecrets candidateData lab.keys.privateKey = some decrypted) :
    createWorkerRequests (Laboratory.run lab runId candidateId suiteId).trace =
      [{ host := "c" ++ runId,
         image := candidateId,
         volumes := [{ mount := "/secrets",
                       storage := [("spec.yaml", Blob.text (dumpCandidate decrypted))] }],
         environment := [],
         logBlob := encodeLog ("c" ++ runId) },
       { host := "b" ++ runId,
         image := suiteData.benchmarkId,
         volumes := [],
         environment := [("candidate", candidateId),
                         ("host", "c" ++ runId),
                         ("run", "r" ++ runId),
                         ("suite", suiteId)],
         logBlob := encodeLog ("b" ++ runId) }] := by
  simp [Laboratory.run, hs, hc, hb, hd, writeBlob, createWorkerRequests]

/-- Witness for claim C1: the section-8 scenario (benchmark B1 with image
img/true-false:1.0, suite S1, candidate C1 with an encrypted secret),
run with the fresh id 123. -/
theorem lab_run_issues_two_workers_witness :
    loadSuite sampleLab.cloudStorage sampleSuiteId = some sampleSuite ∧
    loadCandidate sampleLab.cloudStorage sampleCandidateId = some sampleCandidate ∧
    sampleSuite.benchmarkId = sampleCandidate.benchmarkId ∧
    decryptSecrets sampleCandidate sampleLab.keys.privateKey = some sampleDecrypted ∧
    createWorkerRequests (Laboratory.run sampleLab "123" sampleCandidateId sampleSuiteId).trace =
      [{ host := "c" ++ "123",
         image := sampleCandidateId,
         volumes := [{ mount := "/secrets",
                       storage := [("spec.yaml", Blob.text (dumpCandidate sampleDecrypted))] }],
         environment := [],
         logBlob := encodeLog ("c" ++ "123") },
       { host := "b" ++ "123",
         image := sampleSuite.benchmarkId,
         volumes := [],
         environment := [("candidate", sampleCandidateId),
                         ("host", "c" ++ "123"),
                         ("run", "r" ++ "123"),
                         ("suite", sampleSuiteId)],
         logBlob := encodeLog ("b" ++ "123") }] :=
  ⟨by decide, by decide, by decide, by decide,
   lab_run_issues_two_workers sampleLab "123" sampleCandidateId sampleSuiteId
     sampleSuite sampleCandidate sampleDecrypted
     (by decide) (by decide) (by decide) (by decide)⟩

/-- Claim C2: when the stored suite and candidate descriptions carry
different benchmark ids, `run` fails with the benchmark-mismatch error,
logs it, and issues zero `createWorker` calls. -/
theorem lab_run_benchmark_mismatch
    (lab : LabState) (runId candidateId suiteId : String)
    (suiteData : SuiteDescription) (candidateData : CandidateDescription)
    (hs : loadSuite lab.cloudStorage suiteId = some suiteData)
    (hc : loadCandidate lab.cloudStorage candidateId = some candidateData)
    (hb : suiteData.benchmarkId ≠ candidateData.benchmarkId) :
    (Laboratory.run lab runId candidateId suiteId).result =
      Except.error "Suite and Candidate benchmarks don't match." ∧
    (Laboratory.run lab runId candidateId suiteId).trace =
      [Event.log ("run(" ++ candidateId ++ ", " ++ suiteId ++ ")"),
       Event.readAttempt suiteId,
       Event.readAttempt candidateId,
       Event.log "Suite and Candidate benchmarks don't match."] ∧
    createWorkerRequests (Laboratory.run lab runId candidateId suiteId).trace = [] := by
  refine ⟨?_, ?_, ?_⟩ <;>
    simp [Laboratory.run, hs, hc, hb, createWorkerRequests]

/-- Witness for claim C2: running candidate C1 against suite S2, which
references a different benchmark. -/
theorem lab_run_benchmark_mismatch_witness :
    loadSuite mismatchLab.cloudStorage mismatchedSuiteId = some mismatchedSuite ∧
    loadCandidate mismatchLab.cloudStorage sampleCandidateId = some sampleCandidate ∧
    mismatchedSuite.benchmarkId ≠ sampleCandidate.benchmarkId ∧
    ((Laboratory.run mismatchLab "9" sampleCandidateId mismatchedSuiteId).result =
       Except.error "Suite and Candidate benchmarks don't match." ∧
     (Laboratory.run mismatchLab "9" sampleCandidateId mismatchedSuiteId).trace =
       [Event.log ("run(" ++ sampleCandidateId ++ ", " ++ mismatchedSuiteId ++ ")"),
        Event.readAttempt mismatchedSuiteId,
        Event.readAttempt sampleCandidateId,
        Event.log "Suite and Candidate benchmarks don't match."] ∧
     createWorkerRequests
       (Laboratory.run mismatchLab "9" sampleCandidateId mismatchedSuiteId).trace = []) :=
  ⟨by decide, by decide, by decide,
   lab_run_benchmark_mismatch mismatchLab "9" sampleCandidateId mismatchedSuiteId
     mismatchedSuite sampleCandidate (by decide) (by decide) (by decide)⟩

/-- Claim C7: when no suite blob exists at suiteId, `run` fails with the
suite-not-found error; its trace shows no candidate-load attempt (the
only read attempted is the suite's) and zero `createWorker` calls. -/
theorem lab_run_suite_not_found
    (lab : LabState) (runId candidateId suiteId : String)
    (hs : loadSuite lab.cloudStorage suiteId = none) :
    (Laboratory.run lab runId candidateId suiteId).result =
      Except.error ("Cannot find suite " ++ suiteId) ∧
    (Laboratory.run lab runId candidateId suiteId).trace =
      [Event.log ("run(" ++ candidateId ++ ", " ++ suiteId ++ ")"),
       Event.readAttempt suiteId] ∧
    createWorkerRequests (Laboratory.run lab runId candidateId suiteId).trace = [] := by
  refine ⟨?_, ?_, ?_⟩ <;>
    simp [Laboratory.run, hs, createWorkerRequests]

/-- Witness for claim C7: running against the absent suite key
/suites/absent. -/
theorem lab_run_suite_not_found_witness :
    loadSuite sampleLab.cloudStorage "/suites/absent" = none ∧
    ((Laboratory.run sampleLab "5" sampleCandidateId "/suites/absent").result =
       Except.error ("Cannot find suite " ++ "/suites/absent") ∧
     (Laboratory.run sampleLab "5" sampleCandidateId "/suites/absent").trace =
       [Event.log ("run(" ++ sampleCandidateId ++ ", " ++ "/suites/absent" ++ ")"),
        Event.readAttempt "/suites/absent"] ∧
     createWorkerRequests
       (Laboratory.run sampleLab "5" sampleCandidateId "/suites/absent").trace = []) :=
  ⟨by decide,
   lab_run_suite_not_found sampleLab "5" sampleCandidateId "/suites/absent" (by decide)⟩

/-- Claim C3: `create` on a storage key that already holds a blob fails
rather than silently overwriting; the existing blob's content is
unchanged after the failed call.  The create-once rejection is the blob
storage collaborator's behavior with allowOverwrite=false, modelled from
the spec (sections 5 and 6); the Laboratory passes false on every entity
write. -/
theorem lab_create_refuses_overwrite
    (lab : LabState) (d : AnyDescription) (key : String) (existing : Blob)
    (hk : d.storageKey = some key)
    (he : readBlob lab.cloudStorage key = some existing) :
    (Laboratory.create lab d).result.isOk = false ∧
    readBlob (Laboratory.create lab d).cloudStorage key = some existing := by
  cases d with
  | benchmark b =>
      rw [AnyDescription.storageKey] at hk
      injection hk with hk
      subst hk
      unfold readBlob at he
      simp [Laboratory.create, Laboratory.createBenchmark, writeBlob, readBlob, he,
        Except.isOk, Except.toBool]
  | candidate c =>
      rw [AnyDescription.storageKey] at hk
      injection hk with hk
      subst hk
      unfold readBlob at he
      simp [Laboratory.create, Laboratory.createCandidate, writeBlob, readBlob, he,
        Except.isOk, Except.toBool]
  | suite s =>
      rw [AnyDescription.storageKey] at hk
      injection hk with hk
      subst hk
      unfold readBlob at he
      simp [Laboratory.create, Laboratory.createSuite, writeBlob, readBlob, he,
        Except.isOk, Except.toBool]
  | other k =>
      rw [AnyDescription.storageKey] at hk
      exact absurd hk (by simp)

/-- Witness for claim C3: re-submitting benchmark B1 while its blob is
already stored fails and leaves the stored blob intact. -/
theorem lab_create_refuses_overwrite_witness :
    (AnyDescription.benchmark sampleBenchmark).storageKey = some sampleBenchmarkId ∧
    readBlob sampleLab.cloudStorage sampleBenchmarkId = some (Blob.benchmark sampleBenchmark) ∧
    ((Laboratory.create sampleLab (AnyDescription.benchmark sampleBenchmark)).result.isOk = false ∧
     readBlob (Laboratory.create sampleLab (AnyDescription.benchmark sampleBenchmark)).cloudStorage
       sampleBenchmarkId = some (Blob.benchmark sampleBenchmark)) :=
  ⟨by decide, by decide,
   lab_create_refuses_overwrite sampleLab (AnyDescription.benchmark sampleBenchmark)
     sampleBenchmarkId (Blob.benchmark sampleBenchmark) (by decide) (by decide)⟩

/-- Claim C6: when decrypting the candidate's secret fields with the
service's private key fails, `run` fails (the error propagates) and zero
`createWorker` calls are issued. -/
theorem lab_run_decrypt_failure_no_workers
    (lab : LabState) (runId candidateId suiteId : String)
    (suiteData : SuiteDescription) (candidateData : CandidateDescription)
    (hs : loadSuite lab.cloudStorage suiteId = some suiteData)
    (hc : loadCandidate lab.cloudStorage candidateId = some candidateData)
    (hb : suiteData.benchmarkId = candidateData.benchmarkId)
    (hd : decryptSecrets candidateData lab.keys.privateKey = none) :
    (Laboratory.run lab runId candidateId suiteId).result =
      Except.error "decryptSecrets: field is not valid ciphertext for the given key" ∧
    createWorkerRequests (Laboratory.run lab runId candidateId suiteId).trace = [] := by
  refine ⟨?_, ?_⟩ <;>
    simp [Laboratory.run, hs, hc, hb, hd, createWorkerRequests]

/-- Witness for claim C6: a candidate whose secret field is not valid
ciphertext for the Laboratory's key. -/
theorem lab_run_decrypt_failure_no_workers_witness :
    loadSuite badSecretLab.cloudStorage sampleSuiteId = some sampleSuite ∧
    loadCandidate badSecretLab.cloudStorage badSecretCandidateId = some badSecretCandidate ∧
    sampleSuite.benchmarkId = badSecretCandidate.benchmarkId ∧
    decryptSecrets badSecretCandidate badSecretLab.keys.privateKey = none ∧
    ((Laboratory.run badSecretLab "77" badSecretCandidateId sampleSuiteId).result =
       Except.error "decryptSecrets: field is not valid ciphertext for the given key" ∧
     createWorkerRequests
       (Laboratory.run badSecretLab "77" badSecretCandidateId sampleSuiteId).trace = []) :=
  ⟨by decide, by decide, by decide, by decide,
   lab_run_decrypt_failure_no_workers badSecretLab "77" badSecretCandidateId sampleSuiteId
     sampleSuite badSecretCandidate (by decide) (by decide) (by decide) (by decide)⟩

/-- Claim C8: `create` on a description whose kind is none of benchmark,
candidate or suite fails with the unsupported-kind error, logs it, and
writes no blob to cloud storage. -/
theorem lab_create_unsupported_kind
    (lab : LabState) (d : AnyDescription)
    (hk : d.kind ≠ "benchmark" ∧ d.kind ≠ "candidate" ∧ d.kind ≠ "suite") :
    (Laboratory.create lab d).result =
      Except.error ("Laboratory.create(): unsupported kind===\"" ++ d.kind ++ "\"") ∧
    (Laboratory.create lab d).trace =
      [Event.log ("Laboratory.create(): unsupported kind===\"" ++ d.kind ++ "\"")] ∧
    (Laboratory.create lab d).cloudStorage = lab.cloudStorage := by
  cases d with
  | benchmark b => exact absurd rfl hk.1
  | candidate c => exact absurd rfl hk.2.1
  | suite s => exact absurd rfl hk.2.2
  | other k => exact ⟨rfl, rfl, rfl⟩

/-- Witness for claim C8: a description of kind container. -/
theorem lab_create_unsupported_kind_witness :
    ((AnyDescription.other "container").kind ≠ "benchmark" ∧
     (AnyDescription.other "container").kind ≠ "candidate" ∧
     (AnyDescription.other "container").kind ≠ "suite") ∧
    ((Laboratory.create sampleLab (AnyDescription.other "container")).result =
       Except.error ("Laboratory.create(): unsupported kind===\"" ++
         (AnyDescription.other "container").kind ++ "\"") ∧
     (Laboratory.create sampleLab (AnyDescription.other "container")).trace =
       [Event.log ("Laboratory.create(): unsupported kind===\"" ++
         (AnyDescription.other "container").kind ++ "\"")] ∧
     (Laboratory.create sampleLab (AnyDescription.other "container")).cloudStorage =
       sampleLab.cloudStorage) :=
  ⟨⟨by decide, by decide, by decide⟩,
   lab_create_unsupported_kind sampleLab (AnyDescription.other "container")
     ⟨by decide, by decide, by decide⟩⟩

/-- Claim C9: the Repository dispatches its crawl without awaiting it, so
`initialize()` resolves with the repository state unchanged and the crawl
still pending; in particular, on the sample storage a `select` issued
right after `initialize()` fails to see the benchmarks table even though
running the pending crawl afterwards produces it. -/
theorem repository_initialize_returns_with_crawl_pending
    (cloudStorage : Storage) (repo : RepoState) :
    (Repository.initializeService cloudStorage repo).1 = repo ∧
    (Repository.initializeService cloudStorage repo).2 =
      [Repository.PendingTask.crawlBlobs] ∧
    Repository.select (Repository.initializeService sampleStorage RepoState.empty).1
      "benchmarks" = Except.error "Table benchmarks not found" ∧
    (Repository.runPendingTask Repository.PendingTask.crawlBlobs sampleStorage
        (Repository.initializeService sampleStorage RepoState.empty).1).map
      (fun r => (Repository.select r "benchmarks").isOk) = Except.ok true :=
  ⟨rfl, rfl, by decide, by decide⟩

/-- Claim C10: a successful `run` leaves cloud storage unchanged — so
every entity blob (benchmark, candidate, suite) keeps its content — and
the decrypted candidate manifest exists only in the freshly created
run-scoped in-memory volume at spec.yaml. -/
theorem lab_run_success_preserves_cloud_storage
    (lab : LabState) (runId candidateId suiteId : String)
    (h : (Laboratory.run lab runId candidateId suiteId).result = Except.ok ()) :
    (Laboratory.run lab runId candidateId suiteId).cloudStorage = lab.cloudStorage ∧
    ∃ manifest : String,
      (Laboratory.run lab runId candidateId suiteId).secretsVolume =
        some [("spec.yaml", Blob.text manifest)] := by
  unfold Laboratory.run at h ⊢
  cases hs : loadSuite lab.cloudStorage suiteId with
  | none => simp [hs] at h
  | some suiteData =>
      cases hc : loadCandidate lab.cloudStorage candidateId with
      | none => simp [hs, hc] at h
      | some candidateData =>
          by_cases hb : suiteData.benchmarkId = candidateData.benchmarkId
          · cases hd : decryptSecrets candidateData lab.keys.privateKey with
            | none => simp [hs, hc, hb, hd] at h
            | some decrypted =>
                exact ⟨by simp [hs, hc, hb, hd, writeBlob],
                  dumpCandidate decrypted, by simp [hs, hc, hb, hd, writeBlob]⟩
          · simp [hs, hc, hb] at h

/-- Witness for claim C10: the successful section-8 run with fresh id
123. -/
theorem lab_run_success_preserves_cloud_storage_witness :
    (Laboratory.run sampleLab "123" sampleCandidateId sampleSuiteId).result =
      Except.ok () ∧
    ((Laboratory.run sampleLab "123" sampleCandidateId sampleSuiteId).cloudStorage =
       sampleLab.cloudStorage ∧
     ∃ manifest : String,
       (Laboratory.run sampleLab "123" sampleCandidateId sampleSuiteId).secretsVolume =
         some [("spec.yaml", Blob.text manifest)]) :=
  ⟨by decide,
   lab_run_success_preserves_cloud_storage sampleLab "123" sampleCandidateId
     sampleSuiteId (by decide)⟩

/-- Claim C4 fails on the code: `processCandidate`, `processSuite` and
`processRun` are empty stubs, so the crawl of a storage whose listing
holds a run blob (before its benchmark), a candidate blob and a suite
blob records none of them — their collection tables do not exist after
the crawl (the run record is dropped), while the benchmark handler did
run (its table exists).  This evaluates the crawl at that reordered
listing. -/
theorem repository_crawl_drops_non_benchmark_blobs :
    (Repository.crawlBlobs reorderedStorage RepoState.empty).map
      (fun r => ((Repository.select r "runs").isOk,
                 (Repository.select r "candidates").isOk,
                 (Repository.select r "suites").isOk,
                 (Repository.select r "benchmarks").isOk)) =
      Except.ok (false, false, false, true) := by
  decide

/-- Claim C5 fails on the code: `processBenchmark` inserts without any
uniqueness check (the source's own TODO notes the missing constraint),
so crawling an unchanged storage twice leaves the benchmarks table with
two identical rows for the single stored benchmark. -/
theorem repository_double_crawl_duplicates_rows :
    ((Repository.crawlBlobs sampleStorage RepoState.empty).bind
        (fun r => Repository.crawlBlobs sampleStorage r)).map
      (fun r => dbSelect r.database "benchmarks") =
      Except.ok (Except.ok [sampleBenchmarkRow, sampleBenchmarkRow]) := by
  decide

end Einstein
